import Mathlib

/-!
Shallow embedding of `src-tauri/src/proxy/rate_limit_retry.rs` (cc-switch).

Conventions of the embedding:
* Rust `f64` fields and arithmetic are modelled as exact rationals (`ℚ`).
  All concrete values appearing in claims (1.0, 2.0, 4.0, 5.0, 30.0, 0.1)
  are exactly representable, and `f64::powi` on these inputs is exact, so
  the rational model agrees with the source on every value the claims name.
* `usize` counters are modelled as `Nat`.  The truncating cast
  `self.attempt as i32` in `calculate_backoff` is modelled faithfully by
  `i32cast` (two's-complement reading of the low 32 bits), and `powi` by
  the integer power of the field `ℚ`; the two agree exactly wherever the
  claims name values, and both send a wrapped-negative exponent below the
  unwrapped `min(initial * multiplier^attempt, max)` value.
* `rand::random::<f64>()` (a uniform draw in [0,1)) is modelled as an
  explicit parameter `u : ℚ`; hypotheses `0 ≤ u`, `u < 1` state its range.
* `serde_json::from_str::<serde_json::Value>` belongs to an external crate;
  it is modelled as an explicit parameter `parse : String → Option Json`,
  so every statement about the scanner holds for any parser behaviour.
* `tokio::time::sleep` suspends and returns unit; `wait_and_increment` is
  modelled as a state transformer that also returns the slept duration.
-/

namespace RateLimitRetry

/-- Embeds `struct RetryConfig` (retry configuration). -/
structure RetryConfig where
  max_retries : Nat
  initial_backoff_seconds : ℚ
  backoff_multiplier : ℚ
  max_backoff_seconds : ℚ
  jitter_factor : ℚ
  deriving DecidableEq, Repr

/-- Embeds `impl Default for RetryConfig`. -/
def RetryConfig.default : RetryConfig :=
  { max_retries := 3
    initial_backoff_seconds := 1
    backoff_multiplier := 2
    max_backoff_seconds := 30
    jitter_factor := 1/10 }

/-- The field constraints the spec's data model places on a backoff policy:
positive initial backoff, multiplier ≥ 1.0, max backoff ≥ initial backoff,
jitter factor in [0.0, 1.0]. -/
def RetryConfig.Valid (c : RetryConfig) : Prop :=
  0 < c.initial_backoff_seconds ∧ 1 ≤ c.backoff_multiplier ∧
    c.initial_backoff_seconds ≤ c.max_backoff_seconds ∧
    0 ≤ c.jitter_factor ∧ c.jitter_factor ≤ 1

instance (c : RetryConfig) : Decidable c.Valid := by
  unfold RetryConfig.Valid; infer_instance

/-- Embeds `struct RetryState`. -/
structure RetryState where
  attempt : Nat
  config : RetryConfig
  deriving DecidableEq, Repr

/-- Embeds `RetryState::new`. -/
def RetryState.new (config : RetryConfig) : RetryState :=
  { attempt := 0, config := config }

/-- Embeds `RetryState::can_retry` (takes `&self`: no mutation). -/
def RetryState.can_retry (s : RetryState) : Bool :=
  s.attempt < s.config.max_retries

/-- Models the truncating Rust cast `usize as i32`: the low 32 bits read
in two's complement. -/
def i32cast (n : Nat) : Int :=
  if n % 2^32 < 2^31 then ((n % 2^32 : Nat) : Int)
  else ((n % 2^32 : Nat) : Int) - 2^32

/-- Embeds `RetryState::calculate_backoff` (takes `&self`: no mutation).
The random draw `rand::random::<f64>()` is the parameter `u`.  The result
is the argument of `Duration::from_secs_f64`, in seconds.  The exponent
is `self.attempt as i32`, so it wraps for attempt counts ≥ 2^31; `powi`
on a negative exponent is the reciprocal of the positive power, which the
integer power of `ℚ` matches for the nonzero multipliers of the spec's
policy domain. -/
def RetryState.calculate_backoff (s : RetryState) (u : ℚ) : ℚ :=
  let base_delay := s.config.initial_backoff_seconds *
    s.config.backoff_multiplier ^ i32cast s.attempt
  let capped_delay := min base_delay s.config.max_backoff_seconds
  let jitter := capped_delay * s.config.jitter_factor * (u - 1/2)
  max (capped_delay + jitter) 0

/-- Embeds `RetryState::wait_and_increment` (takes `&mut self`).  Returns
the post-call state and the duration slept; the delay is computed from the
pre-increment attempt count, and the increment follows the sleep. -/
def RetryState.wait_and_increment (s : RetryState) (u : ℚ) : RetryState × ℚ :=
  let delay := s.calculate_backoff u
  ({ s with attempt := s.attempt + 1 }, delay)

/-- Models `serde_json::Value`: the structured interchange values the
scanner inspects.  Objects are key/value lists; `serde_json`'s map keeps
one entry per key, and `Map::get` is modelled by first-match lookup. -/
inductive Json where
  | null : Json
  | bool (b : Bool) : Json
  | num (q : ℚ) : Json
  | str (s : String) : Json
  | arr (elems : List Json) : Json
  | obj (fields : List (String × Json)) : Json

/-- Models `serde_json::Map::get` / `Value::get(key)`: field lookup on an
object, `None` on any other value. -/
def Json.get (j : Json) (key : String) : Option Json :=
  match j with
  | .obj fields => fields.lookup key
  | _ => none

/-- Models `Value::as_str`. -/
def Json.asStr : Json → Option String
  | .str s => some s
  | _ => none

/-- Models `Value::as_object`. -/
def Json.asObject : Json → Option (List (String × Json))
  | .obj fields => some fields
  | _ => none

/-- Embeds `extract_error_from_json`, keeping the source's fall-through:
a string `error` wins; else an object `error` is probed for string
`message` then `detail`; whenever the `error` block produces nothing the
code falls to `delta.text`, then to a top-level `message`. -/
def extract_error_from_json (json : Json) : Option String :=
  let fromErrorField : Option String :=
    match json.get "error" with
    | none => none
    | some error =>
      match error.asStr with
      | some s => some s
      | none =>
        match error.asObject with
        | none => none
        | some error_obj =>
          match (error_obj.lookup "message").bind Json.asStr with
          | some message => some message
          | none => (error_obj.lookup "detail").bind Json.asStr
  match fromErrorField with
  | some s => some s
  | none =>
    match (json.get "delta").bind (fun delta => (delta.get "text").bind Json.asStr) with
    | some text => some text
    | none => (json.get "message").bind Json.asStr

/-- Models Rust `char::to_lowercase` as used by the classifier: the Lean
`Char.toLower` agrees with it on ASCII, which covers the pattern
`"rate limit"` and every character able to influence its occurrence. -/
def lowercaseChars (cs : List Char) : List Char :=
  cs.map Char.toLower

/-- Substring occurrence test on character lists, by successive tails. -/
def listHasSub (pat : List Char) : List Char → Bool
  | [] => pat.isEmpty
  | c :: rest => pat.isPrefixOf (c :: rest) || listHasSub pat rest

/-- Embeds `is_rate_limit_error`:
`content.to_lowercase().contains("rate limit")`. -/
def is_rate_limit_error (content : String) : Bool :=
  listHasSub "rate limit".toList (lowercaseChars content.toList)

/-- Models Rust `str::trim` (`Char.isWhitespace` agrees with Rust's
`char::is_whitespace` on ASCII, which covers the `[DONE]` sentinel test). -/
def trimChars (cs : List Char) : List Char :=
  ((cs.dropWhile Char.isWhitespace).reverse.dropWhile Char.isWhitespace).reverse

/-- Models Rust `str::lines`: lines are terminated by `'\n'`, a final line
without terminator is kept, an empty final segment is not a line, and a
`'\r'` directly before a consumed `'\n'` is stripped. `acc` holds the
current line's characters in reverse. -/
def rustLinesAux : List Char → List Char → List String
  | [], acc => if acc.isEmpty then [] else [String.mk acc.reverse]
  | c :: rest, acc =>
    if c = '\n' then
      let line := acc.reverse
      let line := if line.getLast? = some '\r' then line.dropLast else line
      String.mk line :: rustLinesAux rest []
    else
      rustLinesAux rest (c :: acc)

/-- Models `sse_data.lines()`. -/
def rustLines (s : String) : List String :=
  rustLinesAux s.toList []

/-- Models `line.strip_prefix("data: ")`. -/
def stripDataMarker (line : String) : Option String :=
  if "data: ".toList.isPrefixOf line.toList then
    some (String.mk (line.toList.drop 6))
  else none

/-- The body of `detect_rate_limit_in_sse`'s loop for one line: `false`
stands for the source's `continue`, `true` for its `return true`. -/
def scanLine (parse : String → Option Json) (line : String) : Bool :=
  match stripDataMarker line with
  | none => false
  | some data =>
    if trimChars data.toList = "[DONE]".toList then false
    else
      match parse data with
      | some json_value =>
        match extract_error_from_json json_value with
        | some error_text => is_rate_limit_error error_text
        | none => false
      | none => is_rate_limit_error data

/-- Embeds `detect_rate_limit_in_sse`: a first-match scan over the chunk's
lines (the source's early `return true` is `List.any`'s short-circuit).
`parse` stands for `serde_json::from_str::<serde_json::Value>`. -/
def detect_rate_limit_in_sse (parse : String → Option Json)
    (sse_data : String) : Bool :=
  (rustLines sse_data).any (scanLine parse)

/-- The source's `capped_delay` quantity:
`min(initial * multiplier^(attempt as i32), max)`.  It coincides with the
spec's "capped" (§4.1 step 2, natural exponent) exactly on the
cast-identity region `attempt < 2^31` (`cappedDelay_eq_of_lt`). -/
def cappedDelay (s : RetryState) : ℚ :=
  min (s.config.initial_backoff_seconds *
    s.config.backoff_multiplier ^ i32cast s.attempt) s.config.max_backoff_seconds

/-- First match wins over an ordered candidate list. -/
def firstSome : List (Option String) → Option String
  | [] => none
  | o :: rest =>
    match o with
    | some s => some s
    | none => firstSome rest

/-- Spec-side rendering of the extraction rules (§4.4), for comparison
with `extract_error_from_json`: five candidates tried in order, each
contributing only when present and a string; the first wins. -/
def specOrderedExtract (json : Json) : Option String :=
  firstSome
    [(json.get "error").bind Json.asStr,
     ((json.get "error").bind Json.asObject).bind fun o =>
       (o.lookup "message").bind Json.asStr,
     ((json.get "error").bind Json.asObject).bind fun o =>
       (o.lookup "detail").bind Json.asStr,
     (json.get "delta").bind fun d => (d.get "text").bind Json.asStr,
     (json.get "message").bind Json.asStr]

/-- Spec-side (§4.3 step 3): the candidate text of a data-line payload —
the extracted text when the payload parses as a structured value, the raw
payload string when parsing fails. -/
def specCandidateText (parse : String → Option Json)
    (payload : String) : Option String :=
  match parse payload with
  | some v => specOrderedExtract v
  | none => some payload

/-- Spec-side (§4.3/§4.5): the chunk has a line carrying the `"data: "`
marker whose payload is not the `[DONE]` sentinel and whose candidate
text contains `"rate limit"` after lowercasing. -/
def SpecHasRateLimitLine (parse : String → Option Json)
    (chunk : String) : Prop :=
  ∃ line ∈ rustLines chunk, ∃ payload,
    stripDataMarker line = some payload ∧
    trimChars payload.toList ≠ "[DONE]".toList ∧
    ∃ t, specCandidateText parse payload = some t ∧
      listHasSub "rate limit".toList (lowercaseChars t.toList) = true

/-- One call into the Retry State API, as seen by a caller driving one
retry sequence.  `canRetry` and `calcBackoff` embed `&self` methods (no
state output in the source); `waitIncrement` embeds `&mut self`'s
`wait_and_increment`, with `u` the jitter draw of its inner
`calculate_backoff`. -/
inductive RetryOp where
  | canRetry : RetryOp
  | calcBackoff (u : ℚ) : RetryOp
  | waitIncrement (u : ℚ) : RetryOp

/-- State after one API call. -/
def applyOp (s : RetryState) : RetryOp → RetryState
  | .canRetry => s
  | .calcBackoff _ => s
  | .waitIncrement u => (s.wait_and_increment u).1

/-- State after a sequence of API calls. -/
def runOps (s : RetryState) (ops : List RetryOp) : RetryState :=
  ops.foldl applyOp s

/-- Precondition of one API call under the caller discipline of the spec:
a wait demands that `can_retry()` still holds. -/
def opGuard (s : RetryState) : RetryOp → Bool
  | RetryOp.canRetry => true
  | RetryOp.calcBackoff _ => true
  | RetryOp.waitIncrement _ => s.can_retry

/-- The caller discipline of the spec along a whole sequence:
`wait_and_increment` is invoked only while `can_retry()` still holds. -/
def disciplinedRun (s : RetryState) : List RetryOp → Bool
  | [] => true
  | op :: rest => opGuard s op && disciplinedRun (applyOp s op) rest

/-- The default policy with jitter disabled, as in `test_calculate_backoff`. -/
def noJitterDefault : RetryConfig :=
  { RetryConfig.default with jitter_factor := 0 }

/-- The policy of `test_calculate_backoff_max_cap`: max 5 seconds, no jitter. -/
def cappedTestConfig : RetryConfig :=
  { max_retries := 10
    initial_backoff_seconds := 1
    backoff_multiplier := 2
    max_backoff_seconds := 5
    jitter_factor := 0 }

/-- A valid policy with full jitter, used to instantiate the jitter-window
results on concrete inputs. -/
def unitJitterConfig : RetryConfig :=
  { max_retries := 3
    initial_backoff_seconds := 1
    backoff_multiplier := 2
    max_backoff_seconds := 30
    jitter_factor := 1 }

end RateLimitRetry

section RetryTheorems

open RateLimitRetry

/-- The source's fall-through extraction agrees with the spec's ordered
five-rule extraction on every structured value. -/
theorem extract_eq_spec (j : Json) :
    extract_error_from_json j = specOrderedExtract j := by
  cases hje : j.get "error" with
  | none =>
    cases hd : (j.get "delta").bind fun d => (d.get "text").bind Json.asStr with
    | some t =>
      simp [extract_error_from_json, specOrderedExtract, firstSome, hje, hd]
    | none =>
      cases hmsg : (j.get "message").bind Json.asStr <;>
        simp [extract_error_from_json, specOrderedExtract, firstSome, hje,
          hd, hmsg]
  | some e =>
    cases hstr : e.asStr with
    | some s =>
      simp [extract_error_from_json, specOrderedExtract, firstSome, hje, hstr]
    | none =>
      cases hobj : e.asObject with
      | none =>
        cases hd : (j.get "delta").bind fun d => (d.get "text").bind Json.asStr with
        | some t =>
          simp [extract_error_from_json, specOrderedExtract, firstSome, hje,
            hstr, hobj, hd]
        | none =>
          cases hmsg : (j.get "message").bind Json.asStr <;>
            simp [extract_error_from_json, specOrderedExtract, firstSome, hje,
              hstr, hobj, hd, hmsg]
      | some fields =>
        cases hm : (fields.lookup "message").bind Json.asStr with
        | some m =>
          simp [extract_error_from_json, specOrderedExtract, firstSome, hje,
            hstr, hobj, hm]
        | none =>
          cases hdm : (fields.lookup "detail").bind Json.asStr with
          | some d =>
            simp [extract_error_from_json, specOrderedExtract, firstSome, hje,
              hstr, hobj, hm, hdm]
          | none =>
            cases hd : (j.get "delta").bind fun d => (d.get "text").bind Json.asStr with
            | some t =>
              simp [extract_error_from_json, specOrderedExtract, firstSome,
                hje, hstr, hobj, hm, hdm, hd]
            | none =>
              cases hmsg : (j.get "message").bind Json.asStr <;>
                simp [extract_error_from_json, specOrderedExtract, firstSome,
                  hje, hstr, hobj, hm, hdm, hd, hmsg]

/-- The post-sentinel core of one scanner iteration, characterized by the
spec's candidate text. -/
theorem scanCore_iff (parse : String → Option Json) (data : String) :
    (match parse data with
      | some json_value =>
        match extract_error_from_json json_value with
        | some error_text => is_rate_limit_error error_text
        | none => false
      | none => is_rate_limit_error data) = true ↔
      ∃ t, specCandidateText parse data = some t ∧
        listHasSub "rate limit".toList (lowercaseChars t.toList) = true := by
  cases hp : parse data with
  | none =>
    simp only [specCandidateText, hp, is_rate_limit_error, Option.some.injEq]
    constructor
    · intro h
      exact ⟨data, rfl, h⟩
    · rintro ⟨t, ht, hsub⟩
      cases ht
      exact hsub
  | some v =>
    simp only [specCandidateText, hp, extract_eq_spec]
    cases he : specOrderedExtract v with
    | none => simp [he]
    | some t =>
      simp only [he, is_rate_limit_error, Option.some.injEq]
      constructor
      · intro h
        exact ⟨t, rfl, h⟩
      · rintro ⟨t', ht', hsub⟩
        cases ht'
        exact hsub

/-- One loop iteration of the scanner matches iff the line carries the
data marker, its payload is not the sentinel, and the payload's candidate
text (per the spec's extraction rules) is a rate-limit signal. -/
theorem scanLine_iff (parse : String → Option Json) (line : String) :
    scanLine parse line = true ↔
      ∃ payload, stripDataMarker line = some payload ∧
        trimChars payload.toList ≠ "[DONE]".toList ∧
        ∃ t, specCandidateText parse payload = some t ∧
          listHasSub "rate limit".toList (lowercaseChars t.toList) = true := by
  unfold scanLine
  cases hs : stripDataMarker line with
  | none => simp
  | some data =>
    simp only [Option.some.injEq]
    by_cases hdone : trimChars data.toList = "[DONE]".toList
    · rw [if_pos hdone]
      simp only [Bool.false_eq_true, false_iff]
      rintro ⟨payload, rfl, hne, -⟩
      exact hne hdone
    · rw [if_neg hdone, scanCore_iff]
      constructor
      · intro h
        exact ⟨data, rfl, hdone, h⟩
      · rintro ⟨payload, rfl, -, h⟩
        exact h

/-- The scanner reports a signal iff some line satisfies the per-line
condition (`List.any` externalizes the source's early return). -/
theorem detect_iff_aux (parse : String → Option Json) (chunk : String) :
    detect_rate_limit_in_sse parse chunk = true ↔
      SpecHasRateLimitLine parse chunk := by
  unfold detect_rate_limit_in_sse SpecHasRateLimitLine
  rw [List.any_eq_true]
  constructor
  · rintro ⟨line, hmem, hscan⟩
    exact ⟨line, hmem, (scanLine_iff parse line).mp hscan⟩
  · rintro ⟨line, hmem, hcond⟩
    exact ⟨line, hmem, (scanLine_iff parse line).mpr hcond⟩

/-- C4: `can_retry` returns true iff the current attempt count is strictly
less than the policy's max_retries; it is a pure function of the state (it
embeds a `&self` method returning `bool`, with no state output). -/
theorem can_retry_iff (s : RetryState) :
    s.can_retry = true ↔ s.attempt < s.config.max_retries := by
  simp [RetryState.can_retry]

/-- Rewrites `calculate_backoff` through the spec's "capped" quantity. -/
theorem calculate_backoff_eq (s : RetryState) (u : ℚ) :
    s.calculate_backoff u =
      max (cappedDelay s + cappedDelay s * s.config.jitter_factor * (u - 1/2)) 0 :=
  rfl

/-- Below 2^31 the cast is the identity. -/
theorem i32cast_eq_of_lt (n : Nat) (h : n < 2^31) : i32cast n = (n : Int) := by
  unfold i32cast
  have h32 : n % 2^32 = n := Nat.mod_eq_of_lt (lt_trans h (by norm_num))
  rw [h32, if_pos h]

/-- On the cast-identity region the source's capped delay is the spec's
`min(initial * multiplier^attempt, max)` with natural exponent. -/
theorem cappedDelay_eq_of_lt (s : RetryState) (h : s.attempt < 2^31) :
    cappedDelay s = min (s.config.initial_backoff_seconds *
      s.config.backoff_multiplier ^ s.attempt) s.config.max_backoff_seconds := by
  unfold cappedDelay
  rw [i32cast_eq_of_lt s.attempt h, zpow_natCast]

/-- At attempt counts in `[2^31, 2^32)` the cast wraps to the negated low
bits; in particular at exactly 2^31 the exponent becomes -2^31. -/
theorem i32cast_pow31 : i32cast (2^31) = -((2^31 : Nat) : Int) := by decide

/-- Under the spec's field constraints the capped delay is positive (the
exponent may be wrapped negative; the power of a positive base stays
positive either way). -/
theorem cappedDelay_pos (s : RetryState) (hv : s.config.Valid) :
    0 < cappedDelay s := by
  obtain ⟨hi, hm, hmax, -, -⟩ := hv
  exact lt_min (mul_pos hi (zpow_pos (lt_of_lt_of_le one_pos hm) _))
    (lt_of_lt_of_le hi hmax)

/-- The delay is inside the jitter window around the capped delay, for any
jitter factor allowed by the field constraints. -/
theorem backoff_in_jitter_range (s : RetryState) (u : ℚ)
    (hv : s.config.Valid) (hu0 : 0 ≤ u) (hu1 : u < 1) :
    cappedDelay s * (1 - s.config.jitter_factor / 2) ≤ s.calculate_backoff u ∧
      s.calculate_backoff u ≤ cappedDelay s * (1 + s.config.jitter_factor / 2) := by
  have hc : 0 < cappedDelay s := cappedDelay_pos s hv
  obtain ⟨-, -, -, hj0, hj1⟩ := hv
  rw [calculate_backoff_eq]
  have hcf : 0 ≤ cappedDelay s * s.config.jitter_factor :=
    mul_nonneg hc.le hj0
  have hlow : cappedDelay s * (1 - s.config.jitter_factor / 2) ≤
      cappedDelay s + cappedDelay s * s.config.jitter_factor * (u - 1/2) := by
    nlinarith [mul_nonneg hcf hu0]
  have hhigh : cappedDelay s + cappedDelay s * s.config.jitter_factor * (u - 1/2) ≤
      cappedDelay s * (1 + s.config.jitter_factor / 2) := by
    nlinarith [mul_nonneg hcf (by linarith : (0:ℚ) ≤ 1 - u)]
  refine ⟨le_trans hlow (le_max_left _ _), max_le hhigh ?_⟩
  nlinarith

/-- C2 (amended): with jitter factor 0 and an attempt count below 2^31 —
the region where the source's `as i32` cast is the identity — the delay
is exactly `min(initial * multiplier^attempt, max)`; with the default
policy and jitter 0, attempts 0, 1, 2 give exactly 1, 2, 4 seconds, and
attempt 10 with max 5 gives exactly 5 seconds. -/
theorem calculate_backoff_no_jitter :
    (∀ (s : RetryState) (u : ℚ), s.config.Valid → s.attempt < 2^31 →
      s.config.jitter_factor = 0 →
      s.calculate_backoff u =
        min (s.config.initial_backoff_seconds *
          s.config.backoff_multiplier ^ s.attempt) s.config.max_backoff_seconds) ∧
    (∀ u : ℚ,
      ({ attempt := 0, config := noJitterDefault } : RetryState).calculate_backoff u = 1 ∧
      ({ attempt := 1, config := noJitterDefault } : RetryState).calculate_backoff u = 2 ∧
      ({ attempt := 2, config := noJitterDefault } : RetryState).calculate_backoff u = 4 ∧
      ({ attempt := 10, config := cappedTestConfig } : RetryState).calculate_backoff u = 5) := by
  have hgen : ∀ (s : RetryState) (u : ℚ), 0 < cappedDelay s →
      s.config.jitter_factor = 0 → s.calculate_backoff u = cappedDelay s := by
    intro s u hc hj
    rw [calculate_backoff_eq, hj, mul_zero, zero_mul, add_zero]
    exact max_eq_left hc.le
  constructor
  · intro s u hv hlt hj
    rw [hgen s u (cappedDelay_pos s hv) hj, cappedDelay_eq_of_lt s hlt]
  · intro u
    refine ⟨?_, ?_, ?_, ?_⟩ <;>
      · rw [hgen _ u (cappedDelay_pos _ (by decide)) rfl,
          cappedDelay_eq_of_lt _ (by decide)]
        norm_num [noJitterDefault, cappedTestConfig, RetryConfig.default]

/-- Closed instance of C2's general clause at attempt 3, default policy
with jitter 0, random draw 1/3. -/
theorem calculate_backoff_no_jitter_witness :
    ({ attempt := 3, config := noJitterDefault }
      : RetryState).calculate_backoff (1/3) = min ((1:ℚ) * 2 ^ 3) 30 :=
  calculate_backoff_no_jitter.1
    { attempt := 3, config := noJitterDefault }
    (1/3) (by decide) (by decide) rfl

/-- Refutes C2 as stated: at attempt = 2^31 the cast wraps, the program's
delay is the tiny reciprocal power 2^(-2^31), not the claimed
`min(initial * multiplier^attempt, max) = 5`, although the policy (max 5,
jitter 0) meets every field constraint.  (In `f64` the reciprocal power
underflows to exactly 0.0 — also ≠ 5.) -/
theorem calculate_backoff_no_jitter_counterexample :
    ({ attempt := 2^31, config := cappedTestConfig } : RetryState).config.Valid ∧
    ({ attempt := 2^31, config := cappedTestConfig }
      : RetryState).config.jitter_factor = 0 ∧
    ({ attempt := 2^31, config := cappedTestConfig }
        : RetryState).calculate_backoff 0 ≠
      min (cappedTestConfig.initial_backoff_seconds *
        cappedTestConfig.backoff_multiplier ^ (2^31 : Nat))
        cappedTestConfig.max_backoff_seconds := by
  refine ⟨by decide, rfl, ?_⟩
  have ht1 : (1:ℚ) ≤ 2 ^ (2^31 : Nat) := by
    calc (1:ℚ) = 2 ^ (0:Nat) := by norm_num
    _ ≤ 2 ^ (2^31 : Nat) := pow_le_pow_right₀ (by norm_num) (Nat.zero_le _)
  have ht8 : (8:ℚ) ≤ 2 ^ (2^31 : Nat) := by
    calc (8:ℚ) = 2 ^ (3:Nat) := by norm_num
    _ ≤ 2 ^ (2^31 : Nat) := pow_le_pow_right₀ (by norm_num) (by norm_num)
  have hcap : cappedDelay ({ attempt := 2^31, config := cappedTestConfig }
      : RetryState) = ((2:ℚ) ^ (2^31 : Nat))⁻¹ := by
    unfold cappedDelay
    show min ((1:ℚ) * 2 ^ i32cast (2^31)) 5 = ((2:ℚ) ^ (2^31 : Nat))⁻¹
    rw [i32cast_pow31, zpow_neg, zpow_natCast, one_mul]
    exact min_eq_left (le_trans (inv_le_one_of_one_le₀ ht1) (by norm_num))
  have hL : ({ attempt := 2^31, config := cappedTestConfig }
      : RetryState).calculate_backoff 0 = ((2:ℚ) ^ (2^31 : Nat))⁻¹ := by
    rw [calculate_backoff_eq, hcap]
    show max (((2:ℚ) ^ (2^31 : Nat))⁻¹ +
      ((2:ℚ) ^ (2^31 : Nat))⁻¹ * 0 * ((0:ℚ) - 1/2)) 0 = ((2:ℚ) ^ (2^31 : Nat))⁻¹
    rw [mul_zero, zero_mul, add_zero]
    exact max_eq_left (by positivity)
  have hR : min (cappedTestConfig.initial_backoff_seconds *
      cappedTestConfig.backoff_multiplier ^ (2^31 : Nat))
      cappedTestConfig.max_backoff_seconds = 5 := by
    show min ((1:ℚ) * 2 ^ (2^31 : Nat)) 5 = 5
    rw [one_mul]
    exact min_eq_right (le_trans (by norm_num) ht8)
  rw [hL, hR]
  exact ne_of_lt (lt_of_le_of_lt (inv_le_one_of_one_le₀ ht1) (by norm_num))

/-- C3 (amended): with jitter factor j > 0, a uniform draw u ∈ [0,1), and
an attempt count below 2^31 — the region where the source's `as i32` cast
is the identity — the delay lies in `[capped*(1 - j/2), capped*(1 + j/2)]`
with capped = `min(initial * multiplier^attempt, max)`, inclusive bounds,
and is never negative. -/
theorem calculate_backoff_jitter_bounds (s : RetryState) (u : ℚ)
    (hv : s.config.Valid) (_hjpos : 0 < s.config.jitter_factor)
    (hlt : s.attempt < 2^31) (hu0 : 0 ≤ u) (hu1 : u < 1) :
    min (s.config.initial_backoff_seconds *
        s.config.backoff_multiplier ^ s.attempt) s.config.max_backoff_seconds *
      (1 - s.config.jitter_factor / 2) ≤ s.calculate_backoff u ∧
      s.calculate_backoff u ≤
        min (s.config.initial_backoff_seconds *
          s.config.backoff_multiplier ^ s.attempt) s.config.max_backoff_seconds *
          (1 + s.config.jitter_factor / 2) ∧
      0 ≤ s.calculate_backoff u := by
  obtain ⟨hlow, hhigh⟩ := backoff_in_jitter_range s u hv hu0 hu1
  rw [← cappedDelay_eq_of_lt s hlt]
  exact ⟨hlow, hhigh, by rw [calculate_backoff_eq]; exact le_max_right _ _⟩

/-- Closed instance of C3 at a full-jitter policy, attempt 0, draw 0. -/
theorem calculate_backoff_jitter_bounds_witness :
    min (unitJitterConfig.initial_backoff_seconds *
        unitJitterConfig.backoff_multiplier ^ (0:Nat))
      unitJitterConfig.max_backoff_seconds *
        (1 - unitJitterConfig.jitter_factor / 2) ≤
      ({ attempt := 0, config := unitJitterConfig } : RetryState).calculate_backoff 0 ∧
      ({ attempt := 0, config := unitJitterConfig } : RetryState).calculate_backoff 0 ≤
        min (unitJitterConfig.initial_backoff_seconds *
            unitJitterConfig.backoff_multiplier ^ (0:Nat))
          unitJitterConfig.max_backoff_seconds *
            (1 + unitJitterConfig.jitter_factor / 2) ∧
      0 ≤ ({ attempt := 0, config := unitJitterConfig } : RetryState).calculate_backoff 0 :=
  calculate_backoff_jitter_bounds { attempt := 0, config := unitJitterConfig }
    0 (by decide) (by decide) (by decide) (by decide) (by decide)

/-- Refutes C3 as stated: at attempt = 2^31 with a valid full-jitter
policy (max 30, jitter 1) and draw 0, the wrapped exponent makes the
program's delay 2^(-2^31)/2, far below the claimed window's lower bound
`min(initial * multiplier^attempt, max) * (1 - j/2) = 15`.  (In `f64` the
delay underflows to exactly 0.0 — also below 15.) -/
theorem calculate_backoff_jitter_bounds_counterexample :
    ({ attempt := 2^31, config := unitJitterConfig } : RetryState).config.Valid ∧
    0 < ({ attempt := 2^31, config := unitJitterConfig }
      : RetryState).config.jitter_factor ∧
    ¬(min (unitJitterConfig.initial_backoff_seconds *
        unitJitterConfig.backoff_multiplier ^ (2^31 : Nat))
        unitJitterConfig.max_backoff_seconds *
        (1 - unitJitterConfig.jitter_factor / 2) ≤
      ({ attempt := 2^31, config := unitJitterConfig }
        : RetryState).calculate_backoff 0) := by
  refine ⟨by decide, by decide, ?_⟩
  have ht1 : (1:ℚ) ≤ 2 ^ (2^31 : Nat) := by
    calc (1:ℚ) = 2 ^ (0:Nat) := by norm_num
    _ ≤ 2 ^ (2^31 : Nat) := pow_le_pow_right₀ (by norm_num) (Nat.zero_le _)
  have ht32 : (32:ℚ) ≤ 2 ^ (2^31 : Nat) := by
    calc (32:ℚ) = 2 ^ (5:Nat) := by norm_num
    _ ≤ 2 ^ (2^31 : Nat) := pow_le_pow_right₀ (by norm_num) (by norm_num)
  have hcap : cappedDelay ({ attempt := 2^31, config := unitJitterConfig }
      : RetryState) = ((2:ℚ) ^ (2^31 : Nat))⁻¹ := by
    unfold cappedDelay
    show min ((1:ℚ) * 2 ^ i32cast (2^31)) 30 = ((2:ℚ) ^ (2^31 : Nat))⁻¹
    rw [i32cast_pow31, zpow_neg, zpow_natCast, one_mul]
    exact min_eq_left (le_trans (inv_le_one_of_one_le₀ ht1) (by norm_num))
  have key : ∀ t : ℚ, 0 ≤ t → max (t + t * 1 * ((0:ℚ) - 1/2)) 0 = t / 2 := by
    intro t ht
    have h1 : t + t * 1 * ((0:ℚ) - 1/2) = t / 2 := by ring
    rw [h1]
    exact max_eq_left (div_nonneg ht (by norm_num))
  have hL : ({ attempt := 2^31, config := unitJitterConfig }
      : RetryState).calculate_backoff 0 = ((2:ℚ) ^ (2^31 : Nat))⁻¹ / 2 := by
    rw [calculate_backoff_eq, hcap]
    show max (((2:ℚ) ^ (2^31 : Nat))⁻¹ +
        ((2:ℚ) ^ (2^31 : Nat))⁻¹ * 1 * ((0:ℚ) - 1/2)) 0 =
      ((2:ℚ) ^ (2^31 : Nat))⁻¹ / 2
    exact key _ (by positivity)
  have hR : min (unitJitterConfig.initial_backoff_seconds *
      unitJitterConfig.backoff_multiplier ^ (2^31 : Nat))
      unitJitterConfig.max_backoff_seconds *
      (1 - unitJitterConfig.jitter_factor / 2) = 15 := by
    show min ((1:ℚ) * 2 ^ (2^31 : Nat)) 30 * (1 - 1/2) = 15
    rw [one_mul, min_eq_right (le_trans (by norm_num) ht32)]
    norm_num
  have habs : ∀ t : ℚ, t ≤ 1 → ¬((15:ℚ) ≤ t / 2) := by
    intro t ht hcontra
    linarith
  rw [hL, hR]
  exact habs _ (inv_le_one_of_one_le₀ ht1)

/-- C7: `calculate_backoff` yields only a duration (its embedding returns
no state, as the source's `&self` receiver enforces); `wait_and_increment`
sleeps for the delay computed from the pre-increment attempt count and
increments the attempt count by exactly one, leaving the policy intact. -/
theorem wait_and_increment_frame (s : RetryState) (u : ℚ) :
    (s.wait_and_increment u).2 = s.calculate_backoff u ∧
      (s.wait_and_increment u).1.attempt = s.attempt + 1 ∧
      (s.wait_and_increment u).1.config = s.config :=
  ⟨rfl, rfl, rfl⟩

/-- No API call changes the policy. -/
theorem applyOp_config (s : RetryState) (op : RetryOp) :
    (applyOp s op).config = s.config := by
  cases op <;> rfl

/-- No API call decreases the attempt count. -/
theorem applyOp_attempt_le (s : RetryState) (op : RetryOp) :
    s.attempt ≤ (applyOp s op).attempt := by
  cases op with
  | canRetry => exact le_refl _
  | calcBackoff u => exact le_refl _
  | waitIncrement u => exact Nat.le_succ _

/-- Attempt counts only grow along any call sequence. -/
theorem runOps_attempt_mono (ops : List RetryOp) (s : RetryState) :
    s.attempt ≤ (runOps s ops).attempt := by
  induction ops generalizing s with
  | nil => exact le_refl _
  | cons op rest ih =>
    exact le_trans (applyOp_attempt_le s op) (ih (applyOp s op))

/-- Along a disciplined call sequence the attempt count never leaves
`[0, max_retries]`. -/
theorem disciplined_attempt_le (ops : List RetryOp) (s : RetryState)
    (hinv : s.attempt ≤ s.config.max_retries)
    (hd : disciplinedRun s ops = true) :
    (runOps s ops).attempt ≤ s.config.max_retries := by
  induction ops generalizing s with
  | nil => exact hinv
  | cons op rest ih =>
    rw [disciplinedRun, Bool.and_eq_true] at hd
    obtain ⟨h1, h2⟩ := hd
    have hnext : (applyOp s op).attempt ≤ (applyOp s op).config.max_retries := by
      rw [applyOp_config]
      cases op with
      | canRetry => exact hinv
      | calcBackoff u => exact hinv
      | waitIncrement u =>
        have hlt : s.attempt < s.config.max_retries := by
          simpa [opGuard, RetryState.can_retry] using h1
        exact hlt
    have := ih (applyOp s op) hnext h2
    rwa [applyOp_config] at this

/-- C8: every retry sequence starts at attempt 0, the attempt count is
monotonically non-decreasing under any sequence of API calls, each
completed wait adds exactly one, and a caller that stops waiting once
`can_retry` is false never drives the count past max_retries + 1. -/
theorem retry_attempt_invariants :
    (∀ c : RetryConfig, (RetryState.new c).attempt = 0) ∧
    (∀ (s : RetryState) (ops : List RetryOp),
      s.attempt ≤ (runOps s ops).attempt) ∧
    (∀ (s : RetryState) (u : ℚ),
      (applyOp s (RetryOp.waitIncrement u)).attempt = s.attempt + 1) ∧
    (∀ (c : RetryConfig) (ops : List RetryOp),
      disciplinedRun (RetryState.new c) ops = true →
      (runOps (RetryState.new c) ops).attempt ≤ c.max_retries + 1) := by
  refine ⟨fun c => rfl, fun s ops => runOps_attempt_mono ops s,
    fun s u => rfl, fun c ops hd => ?_⟩
  have h := disciplined_attempt_le ops (RetryState.new c) (Nat.zero_le _) hd
  exact le_trans h (Nat.le_succ _)

/-- Closed instance of C8's disciplined-run clause: default policy, two
waits with a `can_retry` probe between them. -/
theorem retry_attempt_invariants_witness :
    (runOps (RetryState.new RetryConfig.default)
      [RetryOp.waitIncrement 0, RetryOp.canRetry,
        RetryOp.waitIncrement (1/2)]).attempt ≤
      RetryConfig.default.max_retries + 1 :=
  retry_attempt_invariants.2.2.2 RetryConfig.default
    [RetryOp.waitIncrement 0, RetryOp.canRetry, RetryOp.waitIncrement (1/2)]
    (by decide)

/-- C1: the scanner returns true iff some line of the chunk carries the
`"data: "` marker, its payload is not the `[DONE]` sentinel, and the
line's candidate text — extracted per the spec's rules when the payload
parses, the raw payload when parsing fails — contains `"rate limit"`
after lowercasing; with no such line it returns false. -/
theorem detect_rate_limit_in_sse_iff_spec (parse : String → Option Json)
    (chunk : String) :
    detect_rate_limit_in_sse parse chunk = true ↔
      SpecHasRateLimitLine parse chunk :=
  detect_iff_aux parse chunk

end RetryTheorems

namespace RateLimitRetry

/-- The payload of the detected-signal scenario, with the structured value
`serde_json` parses it to. -/
def rateLimitDeltaPayload : String :=
  "\x7b\"delta\":\x7b\"text\":\"Rate limit error, please wait\"\x7d\x7d"

def rateLimitDeltaJson : Json :=
  Json.obj [("delta", Json.obj [("text", Json.str "Rate limit error, please wait")])]

/-- The payload of the no-signal scenario, with its parsed value. -/
def helloDeltaPayload : String :=
  "\x7b\"delta\":\x7b\"text\":\"Hello, how can I help you?\"\x7d\x7d"

def helloDeltaJson : Json :=
  Json.obj [("delta", Json.obj [("text", Json.str "Hello, how can I help you?")])]

/-- A concrete stand-in for `serde_json::from_str` that agrees with it on
every payload the concrete scenarios use: the two delta payloads and a
bare JSON string parse to their structured values, anything else
(including bare unquoted text) is a parse failure. -/
def tableParse : String → Option Json := fun s =>
  if s = rateLimitDeltaPayload then some rateLimitDeltaJson
  else if s = helloDeltaPayload then some helloDeltaJson
  else if s = "\"rate limit exceeded\"" then some (Json.str "rate limit exceeded")
  else none

end RateLimitRetry

section ScannerScenarioTheorems

open RateLimitRetry

/-- The scanner's treatment of a data line that is not the sentinel. -/
theorem scanLine_eq_of (parse : String → Option Json) (line payload : String)
    (hs : stripDataMarker line = some payload)
    (hne : ¬ trimChars payload.toList = "[DONE]".toList) :
    scanLine parse line =
      (match parse payload with
        | some json_value =>
          match extract_error_from_json json_value with
          | some error_text => is_rate_limit_error error_text
          | none => false
        | none => is_rate_limit_error payload) := by
  unfold scanLine
  rw [hs]
  exact if_neg hne

/-- A sentinel data line is skipped. -/
theorem scanLine_done (parse : String → Option Json) (line payload : String)
    (hs : stripDataMarker line = some payload)
    (hdone : trimChars payload.toList = "[DONE]".toList) :
    scanLine parse line = false := by
  unfold scanLine
  rw [hs]
  exact if_pos hdone

/-- A line without the data marker is skipped. -/
theorem scanLine_nodata (parse : String → Option Json) (line : String)
    (hs : stripDataMarker line = none) :
    scanLine parse line = false := by
  unfold scanLine
  rw [hs]

/-- Parse failure: the raw payload is the candidate. -/
theorem scanCore_parse_fail (parse : String → Option Json) (payload : String)
    (hp : parse payload = none) :
    (match parse payload with
      | some json_value =>
        match extract_error_from_json json_value with
        | some error_text => is_rate_limit_error error_text
        | none => false
      | none => is_rate_limit_error payload) = is_rate_limit_error payload := by
  rw [hp]

/-- Parse success with extracted text: the extracted text is classified. -/
theorem scanCore_extract_some (parse : String → Option Json) (payload : String)
    (j : Json) (t : String) (hp : parse payload = some j)
    (hex : extract_error_from_json j = some t) :
    (match parse payload with
      | some json_value =>
        match extract_error_from_json json_value with
        | some error_text => is_rate_limit_error error_text
        | none => false
      | none => is_rate_limit_error payload) = is_rate_limit_error t := by
  rw [hp]
  show (match extract_error_from_json j with
    | some error_text => is_rate_limit_error error_text
    | none => false) = is_rate_limit_error t
  rw [hex]

/-- Parse success without extracted text: the line yields no match. -/
theorem scanCore_extract_none (parse : String → Option Json) (payload : String)
    (j : Json) (hp : parse payload = some j)
    (hex : extract_error_from_json j = none) :
    (match parse payload with
      | some json_value =>
        match extract_error_from_json json_value with
        | some error_text => is_rate_limit_error error_text
        | none => false
      | none => is_rate_limit_error payload) = false := by
  rw [hp]
  show (match extract_error_from_json j with
    | some error_text => is_rate_limit_error error_text
    | none => false) = false
  rw [hex]

/-- C5: extraction follows the spec's five ordered rules, first present
string wins, none applying yields no candidate; a `delta.text` payload
saying "Rate limit error, please wait" on a data line is detected, one
saying "Hello, how can I help you?" is not. -/
theorem extraction_order_spec :
    (∀ j : Json, extract_error_from_json j = specOrderedExtract j) ∧
    (∀ parse : String → Option Json,
      parse rateLimitDeltaPayload = some rateLimitDeltaJson →
      detect_rate_limit_in_sse parse ("data: " ++ rateLimitDeltaPayload) = true) ∧
    (∀ parse : String → Option Json,
      parse helloDeltaPayload = some helloDeltaJson →
      detect_rate_limit_in_sse parse ("data: " ++ helloDeltaPayload) = false) := by
  refine ⟨extract_eq_spec, fun parse hp => ?_, fun parse hp => ?_⟩
  · have h1 : rustLines ("data: " ++ rateLimitDeltaPayload) =
        ["data: " ++ rateLimitDeltaPayload] := by decide
    have h2 : stripDataMarker ("data: " ++ rateLimitDeltaPayload) =
        some rateLimitDeltaPayload := by decide
    have h3 : ¬(trimChars rateLimitDeltaPayload.toList = "[DONE]".toList) := by
      decide
    have h4 : extract_error_from_json rateLimitDeltaJson =
        some "Rate limit error, please wait" := by rfl
    have h5 : is_rate_limit_error "Rate limit error, please wait" = true := by
      decide
    rw [detect_rate_limit_in_sse, h1, List.any_cons, List.any_nil, Bool.or_false,
      scanLine_eq_of parse _ _ h2 h3,
      scanCore_extract_some parse rateLimitDeltaPayload rateLimitDeltaJson _ hp h4]
    exact h5
  · have h1 : rustLines ("data: " ++ helloDeltaPayload) =
        ["data: " ++ helloDeltaPayload] := by decide
    have h2 : stripDataMarker ("data: " ++ helloDeltaPayload) =
        some helloDeltaPayload := by decide
    have h3 : ¬(trimChars helloDeltaPayload.toList = "[DONE]".toList) := by
      decide
    have h4 : extract_error_from_json helloDeltaJson =
        some "Hello, how can I help you?" := by rfl
    have h5 : is_rate_limit_error "Hello, how can I help you?" = false := by
      decide
    rw [detect_rate_limit_in_sse, h1, List.any_cons, List.any_nil, Bool.or_false,
      scanLine_eq_of parse _ _ h2 h3,
      scanCore_extract_some parse helloDeltaPayload helloDeltaJson _ hp h4]
    exact h5

/-- Closed instance of C5 under the concrete parser. -/
theorem extraction_order_spec_witness :
    extract_error_from_json rateLimitDeltaJson =
      specOrderedExtract rateLimitDeltaJson ∧
    detect_rate_limit_in_sse tableParse ("data: " ++ rateLimitDeltaPayload) = true ∧
    detect_rate_limit_in_sse tableParse ("data: " ++ helloDeltaPayload) = false :=
  ⟨extraction_order_spec.1 rateLimitDeltaJson,
    extraction_order_spec.2.1 tableParse rfl,
    extraction_order_spec.2.2 tableParse rfl⟩

/-- C6: a `[DONE]` data line never matches, and a chunk whose data lines
all carry the sentinel payload yields false. -/
theorem done_sentinel_no_match :
    (∀ (parse : String → Option Json) (line payload : String),
      stripDataMarker line = some payload →
      trimChars payload.toList = "[DONE]".toList →
      scanLine parse line = false) ∧
    (∀ (parse : String → Option Json) (chunk : String),
      (∀ line ∈ rustLines chunk, ∀ payload,
        stripDataMarker line = some payload →
        trimChars payload.toList = "[DONE]".toList) →
      detect_rate_limit_in_sse parse chunk = false) := by
  refine ⟨scanLine_done, fun parse chunk h => ?_⟩
  rw [detect_rate_limit_in_sse, List.any_eq_false]
  intro line hmem
  cases hsp : stripDataMarker line with
  | none =>
    rw [scanLine_nodata parse line hsp]
    exact Bool.false_ne_true
  | some payload =>
    rw [scanLine_done parse line payload hsp (h line hmem payload hsp)]
    exact Bool.false_ne_true

/-- Closed instance of C6: a lone sentinel line, and a chunk of two
sentinel lines. -/
theorem done_sentinel_no_match_witness :
    scanLine tableParse "data: [DONE]" = false ∧
    detect_rate_limit_in_sse tableParse "data: [DONE]\n\ndata:  [DONE] " = false :=
  ⟨done_sentinel_no_match.1 tableParse "data: [DONE]" "[DONE]" (by decide)
      (by decide),
    done_sentinel_no_match.2 tableParse "data: [DONE]\n\ndata:  [DONE] "
      (by decide)⟩

/-- C10: a data line whose payload parses but yields no extracted text is
never re-examined as raw text, so it cannot match; concretely a bare JSON
string payload `"rate limit exceeded"` (quotes included) yields false
while the unparseable payload `rate limit exceeded` yields true. -/
theorem parsed_line_no_raw_fallback :
    (∀ (parse : String → Option Json) (line payload : String) (j : Json),
      stripDataMarker line = some payload → parse payload = some j →
      extract_error_from_json j = none →
      scanLine parse line = false) ∧
    (∀ parse : String → Option Json,
      parse "\"rate limit exceeded\"" = some (Json.str "rate limit exceeded") →
      detect_rate_limit_in_sse parse "data: \"rate limit exceeded\"" = false) ∧
    (∀ parse : String → Option Json,
      parse "rate limit exceeded" = none →
      detect_rate_limit_in_sse parse "data: rate limit exceeded" = true) := by
  have hcore : ∀ (parse : String → Option Json) (line payload : String) (j : Json),
      stripDataMarker line = some payload → parse payload = some j →
      extract_error_from_json j = none → scanLine parse line = false := by
    intro parse line payload j hs hp hex
    by_cases hdone : trimChars payload.toList = "[DONE]".toList
    · exact scanLine_done parse line payload hs hdone
    · rw [scanLine_eq_of parse line payload hs hdone]
      exact scanCore_extract_none parse payload j hp hex
  refine ⟨hcore, fun parse hp => ?_, fun parse hp => ?_⟩
  · have h1 : rustLines "data: \"rate limit exceeded\"" =
        ["data: \"rate limit exceeded\""] := by decide
    have h2 : stripDataMarker "data: \"rate limit exceeded\"" =
        some "\"rate limit exceeded\"" := by decide
    have h3 : extract_error_from_json (Json.str "rate limit exceeded") = none := rfl
    rw [detect_rate_limit_in_sse, h1, List.any_cons, List.any_nil, Bool.or_false]
    exact hcore parse _ _ _ h2 hp h3
  · have h1 : rustLines "data: rate limit exceeded" =
        ["data: rate limit exceeded"] := by decide
    have h2 : stripDataMarker "data: rate limit exceeded" =
        some "rate limit exceeded" := by decide
    have h3 : ¬(trimChars "rate limit exceeded".toList = "[DONE]".toList) := by
      decide
    have h4 : is_rate_limit_error "rate limit exceeded" = true := by decide
    rw [detect_rate_limit_in_sse, h1, List.any_cons, List.any_nil, Bool.or_false,
      scanLine_eq_of parse _ _ h2 h3, scanCore_parse_fail parse _ hp]
    exact h4

/-- Closed instance of C10 under the concrete parser: the quoted JSON
string is not detected, the raw unparseable text is. -/
theorem parsed_line_no_raw_fallback_witness :
    scanLine tableParse "data: \"rate limit exceeded\"" = false ∧
    detect_rate_limit_in_sse tableParse "data: \"rate limit exceeded\"" = false ∧
    detect_rate_limit_in_sse tableParse "data: rate limit exceeded" = true :=
  ⟨parsed_line_no_raw_fallback.1 tableParse "data: \"rate limit exceeded\""
      "\"rate limit exceeded\"" (Json.str "rate limit exceeded")
      (by decide) rfl rfl,
    parsed_line_no_raw_fallback.2.1 tableParse rfl,
    parsed_line_no_raw_fallback.2.2 tableParse rfl⟩

end ScannerScenarioTheorems
